import Mathlib

/-!
Verification development for the django-pgpubsub notification delivery and
reconciliation engine.

The repository sources available here are `pgpubsub/logging_utils.py` and the
test suite.  The engine itself (`pgpubsub/listen.py`, `pgpubsub/models.py`,
`pgpubsub/notify.py` and the trigger layer) is not among the available source
files, so the engine is modelled from the specification (`spec.md`): every such
definition carries a doc comment starting with `Modelled from the spec:` and
names the missing piece it stands for.  The logging utilities are translated
directly from `pgpubsub/logging_utils.py`.
-/

set_option maxHeartbeats 1000000

namespace Pgpubsub

/-- Modelled from the spec (§3 Data model, missing `pgpubsub` trigger payload
layer): a row snapshot (`old` or `new` image of a database row).  `idField` is
the primary-key / identity field (`id`), possibly absent; `fields` are the
remaining column values. -/
structure Snapshot where
  idField : Option Int
  fields : List (String × String)
deriving DecidableEq

/-- Modelled from the spec (§3 `Payload structure`, missing payload layer):
the structured payload `\x7bapp, model, old?, new?\x7d`.  `app` and `model` are the
required structural fields (the recovery tests corrupt records by removing
`app`); `old` and `new` snapshots may each be absent depending on the event
type. -/
structure Payload where
  app : Option String
  model : Option String
  old : Option Snapshot
  new : Option Snapshot
deriving DecidableEq

/-- Modelled from the spec (§3 WireNotification, §GLOSSARY Drift): a raw
payload as it sits on the wire or in the backlog table.  It is either text
that is not valid structured data, or an encoding of a structured payload;
`fmt` stands for the textual formatting chosen by the encoder, so two values
`encoded p f1` and `encoded p f2` with `f1 ≠ f2` are byte-for-byte different
encodings of the same structure. -/
inductive RawPayload
  | invalid (text : String)
  | encoded (p : Payload) (fmt : Nat)
deriving DecidableEq

/-- Modelled from the spec (§4.4 step 2 "deserialize the wire payload
defensively", missing `listen.py`): deserialization of a raw payload; fails on
text that is not valid structured data, and forgets the textual formatting
otherwise. -/
def deserialize : RawPayload → Option Payload
  | .invalid _ => none
  | .encoded p _ => some p

/-- Modelled from the spec (§4.4 step 1 "structural equality, not
byte-for-byte"): two raw payloads are structurally equal when both deserialize
to the same structured payload.  Text that is not valid structured data is
never structurally equal to anything. -/
def structEq (a b : RawPayload) : Bool :=
  match deserialize a, deserialize b with
  | some p, some q => decide (p = q)
  | _, _ => false

/-- Modelled from the spec (§3 BacklogRecord, missing `pgpubsub/models.py`
`Notification` model): a durable backlog row.  `id` is the server-assigned
primary key, `locked` abstracts "currently row-locked by another worker"
(spec §5: workers coordinate purely through row locks). -/
structure BacklogRecord where
  id : Nat
  channel : String
  payload : RawPayload
  createdAt : Nat
  dbVersion : Nat
  locked : Bool
deriving DecidableEq

/-- Modelled from the spec (§3 WireNotification): an ephemeral wire message
`\x7bchannel, payload\x7d` plus the originating connection identifier. -/
structure WireNotification where
  channel : String
  payload : RawPayload
  pid : Nat
deriving DecidableEq

/-- Modelled from the spec (§4.4 Execute, missing `listen.py` `_execute`):
run the channel's registered callbacks in registration order on the record's
structured payload.  A callback returning `false` stands for the callback
raising; `List.all` short-circuits exactly as an exception would. -/
def runCallbacks (cbs : List (Payload → Bool)) (p : Payload) : Bool :=
  cbs.all (fun c => c p)

/-- Modelled from the spec (§6 backlog table `delete`): SQL `DELETE WHERE
id = i` on the backlog table. -/
def deleteById (i : Nat) (B : List BacklogRecord) : List BacklogRecord :=
  B.filter (fun r => decide (r.id ≠ i))

/-- Modelled from the spec (§4.4 step 3): how the processor reports one
notification's handling; `contentionLogged i` records that the contended
row `i` was identified and logged at informational level. -/
inductive Outcome
  | executedOk
  | callbackFailed
  | contentionLogged (lockedRecId : Nat)
  | droppedMalformed
  | noMatch
deriving DecidableEq

/-- Modelled from the spec (§4.4): the state of the backlog table after
handling one wire notification, the ids of records whose processing
transaction committed (callbacks ran to completion and the record was
deleted), and the outcome.  The processor is a total function: no exception
escapes to the caller. -/
structure ProcessResult where
  backlog : List BacklogRecord
  executed : List Nat
  outcome : Outcome
deriving DecidableEq

/-- Modelled from the spec (§4.4 Execute, missing `listen.py`): within one
transaction, invoke all callbacks with the record's structured payload, then
delete the record; a callback raising aborts the transaction, so the record
stays and no side effect commits. -/
def executeRecord (cbs : List (Payload → Bool)) (p : Payload)
    (r : BacklogRecord) (B : List BacklogRecord) : ProcessResult :=
  if runCallbacks cbs p then
    { backlog := deleteById r.id B, executed := [r.id], outcome := .executedOk }
  else
    { backlog := B, executed := [], outcome := .callbackFailed }

/-- Modelled from the spec (§4.4 step 1, missing `listen.py`
`select_for_update(skip_locked=True).filter(channel=..., payload=...)`): first
backlog record on the wire's channel, not locked by another worker, whose
payload is structurally equal to the wire payload. -/
def exactMatchSkipLocked (w : WireNotification) (B : List BacklogRecord) :
    Option BacklogRecord :=
  B.find? (fun r =>
    decide (r.channel = w.channel) && !r.locked && structEq r.payload w.payload)

/-- Modelled from the spec (§4.4 step 3, missing `listen.py`
`select_for_update(skip_locked=False)` diagnostic probe): same filter but not
skipping locked rows; used only to identify the contended row. -/
def exactMatchProbe (w : WireNotification) (B : List BacklogRecord) :
    Option BacklogRecord :=
  B.find? (fun r =>
    decide (r.channel = w.channel) && structEq r.payload w.payload)

/-- Modelled from the spec (§3 "`new.id` ... is the canonical row identity
used for fallback matching"): the entity id of a structured payload. -/
def payloadEntityId (p : Payload) : Option Int :=
  p.new.bind (fun s => s.idField)

/-- Modelled from the spec (§4.4 step 2): the entity id stored in a backlog
record's payload (`payload__new__id`). -/
def storedEntityId (r : BacklogRecord) : Option Int :=
  (deserialize r.payload).bind payloadEntityId

/-- Modelled from the spec (§4.4 step 2, missing `listen.py` `process_by_id`
query): first unlocked backlog record on the channel whose payload's `new.id`
equals the extracted id. -/
def findByEntityId (ch : String) (i : Int) (B : List BacklogRecord) :
    Option BacklogRecord :=
  B.find? (fun r =>
    decide (r.channel = ch) && !r.locked && decide (storedEntityId r = some i))

/-- Modelled from the spec (§4.4 step 2 Drift Fallback, missing `listen.py`
`process_by_id`): deserialize defensively; on invalid data or a missing
`new.id`, log and terminate touching nothing; otherwise take at most one
unlocked record with the matching entity id and execute it. -/
def processById (cbs : List (Payload → Bool)) (w : WireNotification)
    (B : List BacklogRecord) : ProcessResult :=
  match deserialize w.payload with
  | none => { backlog := B, executed := [], outcome := .droppedMalformed }
  | some p =>
    match payloadEntityId p with
    | none => { backlog := B, executed := [], outcome := .droppedMalformed }
    | some i =>
      match findByEntityId w.channel i B with
      | none => { backlog := B, executed := [], outcome := .noMatch }
      | some r =>
        match deserialize r.payload with
        | none => { backlog := B, executed := [], outcome := .noMatch }
        | some q => executeRecord cbs q r B

/-- Modelled from the spec (§4.4 state machine, missing `listen.py`
`LockableNotificationProcessor.process`): exact skip-locked match, else the
non-skip-locked diagnostic probe (a hit means the row is being handled
elsewhere: log the contended row and take no further action), else the drift
fallback. -/
def lockableProcess (cbs : List (Payload → Bool)) (w : WireNotification)
    (B : List BacklogRecord) : ProcessResult :=
  match exactMatchSkipLocked w B with
  | some r =>
    match deserialize r.payload with
    | some p => executeRecord cbs p r B
    | none => { backlog := B, executed := [], outcome := .noMatch }
  | none =>
    match exactMatchProbe w B with
    | some r => { backlog := B, executed := [], outcome := .contentionLogged r.id }
    | none => processById cbs w B

/-- Modelled from the spec (§4.2 Listener, missing `listen.py` `listen` loop):
the single-threaded listener loop: each wire notification is fully dispatched
before the next is read; per-notification failures are contained, so the loop
never terminates early.  Returns the final backlog and the committed record
ids in processing order. -/
def listenLoop (cbs : List (Payload → Bool)) :
    List WireNotification → List BacklogRecord → List BacklogRecord × List Nat
  | [], B => (B, [])
  | w :: ws, B =>
    let res := lockableProcess cbs w B
    let rest := listenLoop cbs ws res.backlog
    (rest.1, res.executed ++ rest.2)

/-- Modelled from the spec (§4.5 Recovery, "a record that fails to parse
(e.g., missing required structural fields)"): parsing a stored record —
the payload must deserialize and carry the required structural fields
`app` and `model` (the tests corrupt records by removing `app`). -/
def parseStored (r : BacklogRecord) : Option Payload :=
  (deserialize r.payload).bind (fun p =>
    if p.app.isSome && p.model.isSome then some p else none)

/-- Modelled from the spec (§4.5, missing `notify.py` recovery): whether one
recovery step drains record `r`: it must not be locked by another worker, it
must parse, and its callbacks must all succeed in the record's own
transaction. -/
def recoverStep (cbs : List (Payload → Bool)) (r : BacklogRecord) : Bool :=
  !r.locked &&
    (match parseStored r with
     | none => false
     | some p => runCallbacks cbs p)

/-- Modelled from the spec (§4.5 Recovery Reconciler, missing `notify.py` /
`listen(recover=True)`): one pass over the backlog in creation order (the
backlog list is kept in creation order, records being appended at creation).
Each record is handled in isolation in its own transaction: a drained record
is deleted and its id appended to the side-effect ledger; a record that fails
to parse (or whose callback raises, or that is locked) is logged and left in
the table without aborting processing of subsequent records. -/
def recoverPass (cbs : List (Payload → Bool)) :
    List BacklogRecord → List BacklogRecord × List Nat
  | [] => ([], [])
  | r :: rest =>
    let tail := recoverPass cbs rest
    if recoverStep cbs r then (tail.1, r.id :: tail.2)
    else (r :: tail.1, tail.2)

/-- Modelled from the spec (§2, §6, missing persistence layer): the database
state the trigger layer sees — the next server-assigned id, the current
clock, the applied migration ids of the producing application, and the
backlog table. -/
structure DbState where
  nextId : Nat
  now : Nat
  appliedMigrations : List Nat
  backlog : List BacklogRecord
deriving DecidableEq

/-- Modelled from the spec (§3 "schema/version marker captured at write
time") and `MigrationRecorder.Migration.objects.filter(app=...).latest('id')`
in the tests: the latest applied migration id. -/
def latestMigration (ms : List Nat) : Nat :=
  ms.foldl max 0

/-- Modelled from the spec (§1, §6, missing trigger layer): a row mutation's
trigger writes, inside the mutating transaction, one backlog record (with a
fresh server-assigned id, the current clock as creation timestamp and the
latest applied migration id as version marker) and emits one wire
notification carrying the same channel and payload. -/
def triggerEmit (st : DbState) (ch : String) (p : Payload) (fmt : Nat) :
    DbState × BacklogRecord × WireNotification :=
  let r : BacklogRecord :=
    { id := st.nextId, channel := ch, payload := .encoded p fmt,
      createdAt := st.now, dbVersion := latestMigration st.appliedMigrations,
      locked := false }
  let w : WireNotification := { channel := ch, payload := .encoded p fmt, pid := 0 }
  ({ st with nextId := st.nextId + 1, backlog := st.backlog ++ [r] }, r, w)

/-! ### Logging utilities, translated from `pgpubsub/logging_utils.py` -/

/-- A logging handler as configured by `setup_pgpubsub_logging`
(`logging_utils.py` lines 44-52): its level (upper-cased level name), format
string and target filename. -/
structure LogHandler where
  level : String
  fmt : String
  filename : String
deriving DecidableEq

/-- The observable state of the `logging.getLogger('pgpubsub')` logger that
`setup_pgpubsub_logging` manipulates: its handler list, its level
(upper-cased level name) and its propagation flag. -/
structure LoggerState where
  handlers : List LogHandler
  level : String
  propagate : Bool
deriving DecidableEq

/-- The arguments of one call to `setup_pgpubsub_logging` plus the
`PGPUBSUB_LOG_DIR` environment variable it reads when `logDir` is `none`. -/
structure SetupArgs where
  logDir : Option String
  envLogDir : Option String
  logLevel : String
  logFormat : String
  propagate : Bool
deriving DecidableEq

/-- Python `str.upper()` on an ASCII level name. -/
def upperName (s : String) : String :=
  ⟨s.data.map Char.toUpper⟩

/-- The level names accepted by the `logging` module's `setLevel`
(`logging._nameToLevel`); `Handler.setLevel` raises `ValueError` on any
other string. -/
def validLevelName (s : String) : Bool :=
  ["CRITICAL", "FATAL", "ERROR", "WARN", "WARNING", "INFO", "DEBUG", "NOTSET"].contains s

/-- `setup_pgpubsub_logging` (`logging_utils.py` lines 6-59).  The source
clears the logger's handlers (line 42) before building the file handler, so
when `file_handler.setLevel(log_level.upper())` (line 48) raises `ValueError`
on an unrecognized level name, the exception escapes with the logger left
handlerless; otherwise the single new handler is installed and the logger's
level and propagation flag are set.  Returns the resulting logger state and
`some "ValueError"` when the call raised. -/
def setup_pgpubsub_logging (a : SetupArgs) (lg : LoggerState) :
    LoggerState × Option String :=
  let dir := a.logDir.getD (a.envLogDir.getD "./logs")
  let lvl := upperName a.logLevel
  let cleared : LoggerState := { lg with handlers := [] }
  if validLevelName lvl then
    ({ handlers := [{ level := lvl, fmt := a.logFormat,
                      filename := dir ++ "/pgpubsub.log" }],
       level := lvl, propagate := a.propagate }, none)
  else
    (cleared, some "ValueError")

/-- A sequence of `setup_pgpubsub_logging` calls applied to an initial logger
state, returning the final logger state. -/
def setupSequence (calls : List SetupArgs) (lg : LoggerState) : LoggerState :=
  calls.foldl (fun s a => (setup_pgpubsub_logging a s).1) lg

/-! ### Django `dict` configuration model for
`integrate_pgpubsub_logging_with_django` -/

/-- A Python value as it occurs in a Django `LOGGING` configuration dict:
strings, booleans, numbers, nested dicts (insertion-ordered key-value lists)
and lists. -/
inductive CVal
  | s (v : String)
  | b (v : Bool)
  | n (v : Nat)
  | dict (d : List (String × CVal))
  | arr (xs : List CVal)

/-- A Python dict, insertion-ordered. -/
abbrev CDict := List (String × CVal)

/-- Python `d[k]`-style lookup (first entry with the key). -/
def dictGet (d : CDict) (k : String) : Option CVal :=
  (d.find? (fun kv => decide (kv.1 = k))).map (fun kv => kv.2)

/-- Python `d[k] = v`: replace the value in place when the key exists,
append a new entry otherwise. -/
def dictSet : CDict → String → CVal → CDict
  | [], k, v => [(k, v)]
  | kv :: rest, k, v =>
    if kv.1 = k then (k, v) :: rest else kv :: dictSet rest k v

/-- Python `d.update(other)`: set every entry of `other` in `d`, in order. -/
def dictUpdate (d other : CDict) : CDict :=
  other.foldl (fun acc kv => dictSet acc kv.1 kv.2) d

/-- The `pgpubsub_file` handler entry built by
`configure_django_logging_for_pgpubsub` (`logging_utils.py` lines 89-94). -/
def pgpubsubFileHandler (envLogDir : Option String) : CVal :=
  .dict [("level", .s "INFO"),
         ("class", .s "logging.FileHandler"),
         ("filename", .s ((envLogDir.getD "./logs") ++ "/pgpubsub.log")),
         ("formatter", .s "pgpubsub_formatter")]

/-- The `pgpubsub_formatter` entry (`logging_utils.py` lines 97-99). -/
def pgpubsubFormatterVal : CVal :=
  .dict [("format", .s "%(asctime)s %(levelname).4s %(message)s")]

/-- The `pgpubsub` logger entry (`logging_utils.py` lines 102-106). -/
def pgpubsubLoggerVal : CVal :=
  .dict [("handlers", .arr [.s "pgpubsub_file"]),
         ("level", .s "INFO"),
         ("propagate", .b false)]

/-- `configure_django_logging_for_pgpubsub` (`logging_utils.py` lines 62-108):
the returned configuration fragment, as a function of the `PGPUBSUB_LOG_DIR`
environment variable. -/
def configure_django_logging_for_pgpubsub (envLogDir : Option String) : CDict :=
  [("handlers", .dict [("pgpubsub_file", pgpubsubFileHandler envLogDir)]),
   ("formatters", .dict [("pgpubsub_formatter", pgpubsubFormatterVal)]),
   ("loggers", .dict [("pgpubsub", pgpubsubLoggerVal)])]

/-- The entries of a named section of the pgpubsub fragment (used by the
`update` calls on lines 147-149 of `logging_utils.py`). -/
def pgpubsubSection (envLogDir : Option String) (k : String) : CDict :=
  match dictGet (configure_django_logging_for_pgpubsub envLogDir) k with
  | some (.dict d) => d
  | _ => []

/-- One `if 'x' not in logging_config: logging_config['x'] = \x7b\x7d` step
(`logging_utils.py` lines 139-144). -/
def ensureSection (cfg : CDict) (sec : String) : CDict :=
  if (dictGet cfg sec).isNone then dictSet cfg sec (.dict []) else cfg

/-- `integrate_pgpubsub_logging_with_django` (`logging_utils.py` lines
111-151): initializes the `handlers`, `formatters` and `loggers` sections if
absent (lines 139-144), then `update`s each with the pgpubsub fragment (lines
147-149) and returns the mutated dict.  When a present section is not a dict,
the Python `.update` call raises `AttributeError`, modelled as
`Except.error`. -/
def integrate_pgpubsub_logging_with_django (envLogDir : Option String)
    (cfg : CDict) : Except String CDict :=
  let cfg3 := ensureSection (ensureSection (ensureSection cfg "handlers")
                "formatters") "loggers"
  match dictGet cfg3 "handlers", dictGet cfg3 "formatters", dictGet cfg3 "loggers" with
  | some (.dict hs), some (.dict fs), some (.dict ls) =>
    .ok (dictSet (dictSet (dictSet cfg3
          "handlers" (.dict (dictUpdate hs (pgpubsubSection envLogDir "handlers"))))
          "formatters" (.dict (dictUpdate fs (pgpubsubSection envLogDir "formatters"))))
          "loggers" (.dict (dictUpdate ls (pgpubsubSection envLogDir "loggers"))))
  | _, _, _ => .error "AttributeError"

/-- Lookup of key `k` inside the dict stored at top-level key `sec` of a
configuration (used to state frame conditions about the `handlers`,
`formatters` and `loggers` sections). -/
def sectionLookup (cfg : CDict) (sec k : String) : Option CVal :=
  match dictGet cfg sec with
  | some (.dict d) => dictGet d k
  | _ => none

/-! ### Concrete fixtures used by the witness theorems, mirroring the
fixtures of the test suite (`test_payload_drift.py`, `test_core.py`). -/

/-- The `original_payload` fixture of `test_payload_drift.py`. -/
def originalPayload : Payload :=
  { app := some "tests", model := some "Author",
    old := some { idField := some 7, fields := [("name", "Old Name"), ("age", "25")] },
    new := some { idField := some 7, fields := [("name", "Test Author"), ("age", "30")] } }

/-- The `drifted_payload` fixture of `test_payload_drift.py`: same `new.id`,
different snapshot fields. -/
def driftedPayload : Payload :=
  { app := some "tests", model := some "Author",
    old := some { idField := some 7, fields := [("name", "Old Name"), ("age", "30")] },
    new := some { idField := some 7, fields := [("name", "Test Author"), ("age", "35")] } }

/-- A payload corrupted the way `_create_notification_that_cannot_be_processed`
does in `test_core.py`: the required `app` field removed. -/
def corruptedPayload : Payload :=
  { originalPayload with app := none }

/-- A stored backlog record holding `originalPayload`. -/
def storedRecord : BacklogRecord :=
  { id := 1, channel := "tests_Author_insert", payload := .encoded originalPayload 0,
    createdAt := 5, dbVersion := 3, locked := false }

/-- A second stored record for the same entity, textually re-encoded. -/
def storedRecord2 : BacklogRecord :=
  { storedRecord with id := 2, payload := .encoded originalPayload 1 }

/-- A third stored record for the same entity with a corrupted payload. -/
def storedRecord3 : BacklogRecord :=
  { storedRecord with id := 3, payload := .encoded corruptedPayload 0 }

/-- The three-record backlog of
`test_process_by_id_with_multiple_notifications`. -/
def multiBacklog : List BacklogRecord :=
  [storedRecord, storedRecord2, storedRecord3]

/-- A wire notification carrying the drifted payload. -/
def driftedWire : WireNotification :=
  { channel := "tests_Author_insert", payload := .encoded driftedPayload 0, pid := 0 }

/-- The `setup_pgpubsub_logging` call of `test_logging_utils_setup`. -/
def debugSetupArgs : SetupArgs :=
  { logDir := some "tmpdir", envLogDir := none, logLevel := "DEBUG",
    logFormat := "%(levelname)s: %(message)s", propagate := false }

/-- A second call using the default `INFO` level (lower-case on purpose:
`setLevel` upper-cases it). -/
def infoSetupArgs : SetupArgs :=
  { logDir := none, envLogDir := some "/var/log", logLevel := "info",
    logFormat := "%(message)s", propagate := true }

/-- A call with an unrecognized level name (raises `ValueError`). -/
def bogusSetupArgs : SetupArgs :=
  { debugSetupArgs with logLevel := "bogus" }

/-- A logger state that already carries one handler from an earlier call. -/
def initialLogger : LoggerState :=
  { handlers := [{ level := "INFO", fmt := "f", filename := "x/pgpubsub.log" }],
    level := "INFO", propagate := false }

/-- A Django `LOGGING` dict whose `handlers` entry is not a dict. -/
def badConfig : CDict := [("handlers", .n 3)]

/-- A typical Django `LOGGING` dict with an existing console handler. -/
def sampleConfig : CDict :=
  [("version", .n 1), ("disable_existing_loggers", .b false),
   ("handlers", .dict [("console", .dict [("class", .s "logging.StreamHandler")])])]

/-! ### Helper lemmas -/

/-- `List.find?` returns the designated element when it is the unique one
satisfying the predicate. -/
theorem find_first_of_unique {α : Type} (p : α → Bool) (l : List α) (a : α)
    (ha : a ∈ l) (hpa : p a = true)
    (huniq : ∀ x ∈ l, p x = true → x = a) :
    l.find? p = some a := by
  have hs : (l.find? p).isSome = true := List.find?_isSome.mpr ⟨a, ha, hpa⟩
  obtain ⟨b, hb⟩ := Option.isSome_iff_exists.mp hs
  have hpb := List.find?_some hb
  have hmb := List.mem_of_find?_eq_some hb
  rw [hb, huniq b hmb hpb]

/-- Deleting a present record from a backlog with pairwise-distinct ids
removes exactly one row. -/
theorem deleteById_length (B : List BacklogRecord) (r : BacklogRecord)
    (hnd : (B.map BacklogRecord.id).Nodup) (hr : r ∈ B) :
    (deleteById r.id B).length + 1 = B.length := by
  induction B with
  | nil => cases hr
  | cons x xs ih =>
    rw [List.map_cons, List.nodup_cons] at hnd
    rcases List.mem_cons.mp hr with hxr | hxs
    · have hall : ∀ y ∈ xs, (fun z => decide (z.id ≠ r.id)) y = true := by
        intro y hy
        have hmem : y.id ∈ xs.map BacklogRecord.id := List.mem_map_of_mem _ hy
        simp only [decide_eq_true_eq]
        intro he
        rw [hxr] at he
        rw [he] at hmem
        exact hnd.1 hmem
      have hnot : ¬ ((fun z => decide (z.id ≠ r.id)) x = true) := by
        simp [hxr]
      have hfilter : List.filter (fun z => decide (z.id ≠ r.id)) xs = xs :=
        List.filter_eq_self.mpr hall
      show (List.filter (fun z => decide (z.id ≠ r.id)) (x :: xs)).length + 1
          = (x :: xs).length
      rw [List.filter_cons, if_neg hnot, hfilter, List.length_cons]
    · have hne : x.id ≠ r.id := by
        intro he
        have hmem : r.id ∈ xs.map BacklogRecord.id := List.mem_map_of_mem _ hxs
        rw [← he] at hmem
        exact hnd.1 hmem
      have hyes : ((fun z => decide (z.id ≠ r.id)) x = true) := by simp [hne]
      have hxs2 : (List.filter (fun z => decide (z.id ≠ r.id)) xs).length + 1
          = xs.length := ih hnd.2 hxs
      show (List.filter (fun z => decide (z.id ≠ r.id)) (x :: xs)).length + 1
          = (x :: xs).length
      rw [List.filter_cons, if_pos hyes, List.length_cons, List.length_cons]
      omega

/-- A surviving record stays in the backlog after a delete of another id. -/
theorem mem_deleteById (B : List BacklogRecord) (i : Nat) (x : BacklogRecord)
    (hx : x ∈ B) (hne : x.id ≠ i) : x ∈ deleteById i B :=
  List.mem_filter.mpr ⟨hx, by simpa using hne⟩

/-- The two halves of a boolean filter partition a list's length. -/
theorem length_filter_partition {α : Type} (p : α → Bool) (l : List α) :
    (l.filter p).length + (l.filter (fun x => !p x)).length = l.length := by
  induction l with
  | nil => rfl
  | cons x xs ih =>
    cases h : p x with
    | true => simp [List.filter_cons, h]; omega
    | false => simp [List.filter_cons, h]; omega

/-- The starting value bounds a `foldl max`. -/
theorem foldl_max_init_le (l : List Nat) (a : Nat) : a ≤ l.foldl max a := by
  induction l generalizing a with
  | nil => exact Nat.le_refl a
  | cons x xs ih => exact Nat.le_trans (Nat.le_max_left a x) (ih (max a x))

/-- Every applied migration id is bounded by the latest one. -/
theorem mem_le_latestMigration (l : List Nat) (m : Nat) (hm : m ∈ l) :
    m ≤ latestMigration l := by
  unfold latestMigration
  have aux : ∀ (t : List Nat) (a : Nat), m ∈ t → m ≤ t.foldl max a := by
    intro t
    induction t with
    | nil => intro a ha; cases ha
    | cons x xs ih =>
      intro a ha
      rcases List.mem_cons.mp ha with hx | hxs
      · subst hx
        exact Nat.le_trans (Nat.le_max_right a m) (foldl_max_init_le xs (max a m))
      · exact ih (max a x) hxs
  exact aux l 0 hm

/-- Setting a key makes it readable. -/
theorem dictGet_dictSet_same (d : CDict) (k : String) (v : CVal) :
    dictGet (dictSet d k v) k = some v := by
  induction d with
  | nil => simp [dictSet, dictGet, List.find?]
  | cons kv rest ih =>
    by_cases h : kv.1 = k
    · simp [dictSet, h, dictGet, List.find?]
    · simp only [dictSet, h, if_false]
      simpa [dictGet, List.find?_cons, h] using ih

/-- Setting one key leaves every other key unchanged. -/
theorem dictGet_dictSet_ne (d : CDict) (k k2 : String) (v : CVal)
    (h : k2 ≠ k) : dictGet (dictSet d k v) k2 = dictGet d k2 := by
  induction d with
  | nil => simp [dictSet, dictGet, List.find?, Ne.symm h]
  | cons kv rest ih =>
    by_cases hk : kv.1 = k
    · simp [dictSet, hk, dictGet, List.find?_cons, Ne.symm h]
    · simp only [dictSet, hk, if_false]
      by_cases hk2 : kv.1 = k2
      · simp [dictGet, List.find?_cons, hk2]
      · simpa [dictGet, List.find?_cons, hk2] using ih

/-- Lookups inside a section only depend on the section's top-level value. -/
theorem sectionLookup_congr (c1 c2 : CDict) (sec : String)
    (h : dictGet c1 sec = dictGet c2 sec) (k : String) :
    sectionLookup c1 sec k = sectionLookup c2 sec k := by
  unfold sectionLookup
  rw [h]

/-- What `ensureSection` guarantees when the section, if present, is a dict:
afterwards the section is a dict `d`, all other keys are untouched, and `d`
agrees with the original section lookups. -/
theorem ensureSection_spec (cfg : CDict) (sec : String)
    (hsec : ∀ v, dictGet cfg sec = some v → ∃ d, v = CVal.dict d) :
    ∃ d, dictGet (ensureSection cfg sec) sec = some (CVal.dict d) ∧
      (∀ k, k ≠ sec → dictGet (ensureSection cfg sec) k = dictGet cfg k) ∧
      ∀ k, dictGet d k = sectionLookup cfg sec k := by
  cases hg : dictGet cfg sec with
  | none =>
    refine ⟨[], ?_, ?_, ?_⟩
    · simp [ensureSection, hg, dictGet_dictSet_same]
    · intro k hk
      simp [ensureSection, hg, dictGet_dictSet_ne cfg sec k _ hk]
    · intro k
      unfold sectionLookup
      rw [hg]
      rfl
  | some v =>
    obtain ⟨d, hd⟩ := hsec v hg
    subst hd
    refine ⟨d, ?_, ?_, ?_⟩
    · simp [ensureSection, hg]
    · intro k _
      simp [ensureSection, hg]
    · intro k
      unfold sectionLookup
      rw [hg]

/-! ### Claim theorems -/

/-- C7: End-to-end exactly-once drain — a single row mutation on a lockable
channel produces one backlog record and one wire notification; processing
that wire notification (callbacks succeeding) leaves zero backlog records for
the event and commits exactly one side effect, the deletion of that record
being the commit signal. -/
theorem end_to_end_exactly_once_drain (cbs : List (Payload → Bool))
    (st : DbState) (ch : String) (p : Payload) (fmt : Nat)
    (hempty : st.backlog = [])
    (hcb : ∀ q : Payload, runCallbacks cbs q = true) :
    (lockableProcess cbs (triggerEmit st ch p fmt).2.2
        (triggerEmit st ch p fmt).1.backlog).backlog = [] ∧
    (lockableProcess cbs (triggerEmit st ch p fmt).2.2
        (triggerEmit st ch p fmt).1.backlog).executed
      = [(triggerEmit st ch p fmt).2.1.id] := by
  constructor <;>
    simp [triggerEmit, hempty, lockableProcess, exactMatchSkipLocked,
      List.find?_cons, structEq, deserialize, executeRecord, hcb p,
      deleteById, List.filter]

/-- Witness for C7 at a concrete database state and payload. -/
theorem end_to_end_exactly_once_drain_witness :
    (lockableProcess []
        (triggerEmit ⟨10, 4, [1, 2], []⟩ "tests_Author_insert" originalPayload 0).2.2
        (triggerEmit ⟨10, 4, [1, 2], []⟩ "tests_Author_insert" originalPayload 0).1.backlog).backlog
      = [] ∧
    (lockableProcess []
        (triggerEmit ⟨10, 4, [1, 2], []⟩ "tests_Author_insert" originalPayload 0).2.2
        (triggerEmit ⟨10, 4, [1, 2], []⟩ "tests_Author_insert" originalPayload 0).1.backlog).executed
      = [(triggerEmit ⟨10, 4, [1, 2], []⟩ "tests_Author_insert" originalPayload 0).2.1.id] :=
  end_to_end_exactly_once_drain [] ⟨10, 4, [1, 2], []⟩ "tests_Author_insert"
    originalPayload 0 rfl (fun _ => rfl)

/-- C8: BacklogRecord metadata invariant — a record written by the trigger
carries a creation timestamp no earlier than the start of the writing
transaction and a version marker equal to the latest applied migration id of
the producing application at write time. -/
theorem backlog_metadata_invariant (st : DbState) (txStart : Nat)
    (ch : String) (p : Payload) (fmt : Nat) (htx : txStart ≤ st.now) :
    txStart ≤ (triggerEmit st ch p fmt).2.1.createdAt ∧
    (triggerEmit st ch p fmt).2.1.dbVersion = latestMigration st.appliedMigrations ∧
    ∀ m ∈ st.appliedMigrations, m ≤ (triggerEmit st ch p fmt).2.1.dbVersion := by
  refine ⟨htx, rfl, ?_⟩
  intro m hm
  exact mem_le_latestMigration st.appliedMigrations m hm

/-- Witness for C8 at a concrete database state. -/
theorem backlog_metadata_invariant_witness :
    2 ≤ (triggerEmit ⟨10, 4, [1, 9, 3], []⟩ "c" originalPayload 0).2.1.createdAt ∧
    (triggerEmit ⟨10, 4, [1, 9, 3], []⟩ "c" originalPayload 0).2.1.dbVersion
      = latestMigration [1, 9, 3] ∧
    ∀ m ∈ [1, 9, 3],
      m ≤ (triggerEmit ⟨10, 4, [1, 9, 3], []⟩ "c" originalPayload 0).2.1.dbVersion :=
  backlog_metadata_invariant ⟨10, 4, [1, 9, 3], []⟩ 2 "c" originalPayload 0
    (by decide)

/-- C4: Malformed-wire-payload no-op — when the wire payload is not valid
structured data, or deserializes but lacks the `new.id` identity field, the
drift-fallback path (`process_by_id`) touches no backlog record, invokes no
callback, and (being a total function here) lets no exception escape. -/
theorem malformed_wire_payload_noop (cbs : List (Payload → Bool))
    (w : WireNotification) (B : List BacklogRecord)
    (hbad : (deserialize w.payload).bind payloadEntityId = none) :
    (processById cbs w B).backlog = B ∧
    (processById cbs w B).executed = [] ∧
    (processById cbs w B).outcome = Outcome.droppedMalformed := by
  cases hdes : deserialize w.payload with
  | none => refine ⟨?_, ?_, ?_⟩ <;> simp [processById, hdes]
  | some p =>
    rw [hdes] at hbad
    simp only [Option.some_bind] at hbad
    refine ⟨?_, ?_, ?_⟩ <;> simp [processById, hdes, hbad]

/-- Witness for C4 at the invalid-JSON input of
`test_process_by_id_invalid_payload`. -/
theorem malformed_wire_payload_noop_witness :
    (processById [] ⟨"tests_Author_insert", .invalid "invalid json", 12345⟩
        [storedRecord]).backlog = [storedRecord] ∧
    (processById [] ⟨"tests_Author_insert", .invalid "invalid json", 12345⟩
        [storedRecord]).executed = [] ∧
    (processById [] ⟨"tests_Author_insert", .invalid "invalid json", 12345⟩
        [storedRecord]).outcome = Outcome.droppedMalformed :=
  malformed_wire_payload_noop [] ⟨"tests_Author_insert", .invalid "invalid json", 12345⟩
    [storedRecord] rfl

/-- C6: Lock-contention handling — when the skip-locked exact-match query
finds no row but the non-skip-locked diagnostic probe does, the found row is
indeed locked by another worker, its identity is logged (carried in the
outcome), and the worker takes no further action: no callback, no delete, no
error. -/
theorem lock_contention_probe_noop (cbs : List (Payload → Bool))
    (w : WireNotification) (B : List BacklogRecord) (r : BacklogRecord)
    (hskip : exactMatchSkipLocked w B = none)
    (hprobe : exactMatchProbe w B = some r) :
    (lockableProcess cbs w B).backlog = B ∧
    (lockableProcess cbs w B).executed = [] ∧
    (lockableProcess cbs w B).outcome = Outcome.contentionLogged r.id ∧
    r.locked = true := by
  have hres : lockableProcess cbs w B
      = { backlog := B, executed := [], outcome := .contentionLogged r.id } := by
    simp [lockableProcess, hskip, hprobe]
  have hpr := List.find?_some hprobe
  have hmem := List.mem_of_find?_eq_some hprobe
  have hnone := List.find?_eq_none.mp hskip r hmem
  simp only [Bool.and_eq_true, decide_eq_true_eq] at hpr
  have hlk : r.locked = true := by
    cases hlv : r.locked with
    | true => rfl
    | false =>
      exfalso
      apply hnone
      simp [hpr.1, hpr.2, hlv]
  exact ⟨by rw [hres], by rw [hres], by rw [hres], hlk⟩

/-- Witness for C6: a single exactly-matching record held (locked) by another
worker. -/
theorem lock_contention_probe_noop_witness :
    (lockableProcess []
        ⟨"tests_Author_insert", .encoded originalPayload 1, 0⟩
        [{ storedRecord with locked := true }]).backlog
      = [{ storedRecord with locked := true }] ∧
    (lockableProcess []
        ⟨"tests_Author_insert", .encoded originalPayload 1, 0⟩
        [{ storedRecord with locked := true }]).executed = [] ∧
    (lockableProcess []
        ⟨"tests_Author_insert", .encoded originalPayload 1, 0⟩
        [{ storedRecord with locked := true }]).outcome
      = Outcome.contentionLogged { storedRecord with locked := true }.id ∧
    { storedRecord with locked := true }.locked = true :=
  lock_contention_probe_noop []
    ⟨"tests_Author_insert", .encoded originalPayload 1, 0⟩
    [{ storedRecord with locked := true }] { storedRecord with locked := true }
    (by decide) (by decide)

/-- C1: Drift fallback exactly-once — on a wire notification whose payload
differs structurally from every stored record but whose deserialized `new.id`
matches at least one unlocked record on the channel, processing (callbacks
succeeding) executes the callbacks for exactly one such record and deletes
exactly that record; all other records, including others sharing the entity
id, remain. -/
theorem drift_fallback_exactly_once (cbs : List (Payload → Bool))
    (w : WireNotification) (B : List BacklogRecord)
    (hnd : (B.map BacklogRecord.id).Nodup)
    (hdrift : ∀ r ∈ B, structEq r.payload w.payload = false)
    (p : Payload) (hdes : deserialize w.payload = some p)
    (i : Int) (hid : payloadEntityId p = some i)
    (r0 : BacklogRecord) (hr0 : r0 ∈ B) (hch0 : r0.channel = w.channel)
    (hlk0 : r0.locked = false) (hsid0 : storedEntityId r0 = some i)
    (hcb : ∀ q : Payload, runCallbacks cbs q = true) :
    ∃ r ∈ B, r.channel = w.channel ∧ r.locked = false ∧
      storedEntityId r = some i ∧
      (lockableProcess cbs w B).executed = [r.id] ∧
      (lockableProcess cbs w B).backlog = deleteById r.id B ∧
      (lockableProcess cbs w B).backlog.length + 1 = B.length ∧
      ∀ x ∈ B, x.id ≠ r.id → x ∈ (lockableProcess cbs w B).backlog := by
  have hskip : exactMatchSkipLocked w B = none := by
    apply List.find?_eq_none.mpr
    intro x hx
    simp [hdrift x hx]
  have hprobe : exactMatchProbe w B = none := by
    apply List.find?_eq_none.mpr
    intro x hx
    simp [hdrift x hx]
  have hsomef : (findByEntityId w.channel i B).isSome = true := by
    apply List.find?_isSome.mpr
    exact ⟨r0, hr0, by simp [hch0, hlk0, hsid0]⟩
  obtain ⟨r, hfind⟩ := Option.isSome_iff_exists.mp hsomef
  have hpredr := List.find?_some hfind
  have hmemr := List.mem_of_find?_eq_some hfind
  simp only [Bool.and_eq_true, decide_eq_true_eq, Bool.not_eq_true'] at hpredr
  obtain ⟨⟨hch, hlk⟩, hsid⟩ := hpredr
  obtain ⟨q, hq, _⟩ := Option.bind_eq_some.mp hsid
  have hres : lockableProcess cbs w B
      = { backlog := deleteById r.id B, executed := [r.id],
          outcome := .executedOk } := by
    simp [lockableProcess, hskip, hprobe, processById, hdes, hid, hfind, hq,
      executeRecord, hcb q]
  refine ⟨r, hmemr, hch, hlk, hsid, by rw [hres], by rw [hres], ?_, ?_⟩
  · rw [hres]
    exact deleteById_length B r hnd hmemr
  · intro x hx hne
    rw [hres]
    exact mem_deleteById B r.id x hx hne

/-- Witness for C1: three stored records sharing entity id 7 (as in
`test_process_by_id_with_multiple_notifications`), a drifted wire payload,
no callbacks registered. -/
theorem drift_fallback_exactly_once_witness :
    ∃ r ∈ multiBacklog,
      r.channel = driftedWire.channel ∧
      r.locked = false ∧ storedEntityId r = some 7 ∧
      (lockableProcess [] driftedWire multiBacklog).executed = [r.id] ∧
      (lockableProcess [] driftedWire multiBacklog).backlog
        = deleteById r.id multiBacklog ∧
      (lockableProcess [] driftedWire multiBacklog).backlog.length + 1
        = multiBacklog.length ∧
      ∀ x ∈ multiBacklog, x.id ≠ r.id →
        x ∈ (lockableProcess [] driftedWire multiBacklog).backlog :=
  drift_fallback_exactly_once [] driftedWire multiBacklog
    (by decide) (by decide) driftedPayload (by decide) 7 (by decide)
    storedRecord (by decide) (by decide) (by decide) (by decide)
    (fun _ => rfl)

/-- C3: Callback-failure atomicity — whenever processing a lockable-channel
notification ends with a callback raising (`callbackFailed`), the transaction
is aborted: the matched backlog record is not deleted, every backlog record
is left exactly as it was, no side effect commits, and the listener loop
continues with the remaining notifications as if nothing happened. -/
theorem callback_failure_atomicity (cbs : List (Payload → Bool))
    (w : WireNotification) (B : List BacklogRecord) (ws : List WireNotification)
    (hfail : (lockableProcess cbs w B).outcome = Outcome.callbackFailed) :
    (lockableProcess cbs w B).backlog = B ∧
    (lockableProcess cbs w B).executed = [] ∧
    listenLoop cbs (w :: ws) B = listenLoop cbs ws B := by
  have key : (lockableProcess cbs w B).backlog = B
      ∧ (lockableProcess cbs w B).executed = [] := by
    cases hskip : exactMatchSkipLocked w B with
    | some r =>
      cases hdes : deserialize r.payload with
      | some p =>
        cases hrc : runCallbacks cbs p with
        | true =>
          have hres : lockableProcess cbs w B
              = { backlog := deleteById r.id B, executed := [r.id],
                  outcome := .executedOk } := by
            simp [lockableProcess, hskip, hdes, executeRecord, hrc]
          rw [hres] at hfail
          simp at hfail
        | false =>
          have hres : lockableProcess cbs w B
              = { backlog := B, executed := [], outcome := .callbackFailed } := by
            simp [lockableProcess, hskip, hdes, executeRecord, hrc]
          rw [hres]
          exact ⟨rfl, rfl⟩
      | none =>
        have hres : lockableProcess cbs w B
            = { backlog := B, executed := [], outcome := .noMatch } := by
          simp [lockableProcess, hskip, hdes]
        rw [hres] at hfail
        simp at hfail
    | none =>
      cases hprobe : exactMatchProbe w B with
      | some r =>
        have hres : lockableProcess cbs w B
            = { backlog := B, executed := [],
                outcome := .contentionLogged r.id } := by
          simp [lockableProcess, hskip, hprobe]
        rw [hres] at hfail
        simp at hfail
      | none =>
        have hpb : lockableProcess cbs w B = processById cbs w B := by
          simp [lockableProcess, hskip, hprobe]
        rw [hpb] at hfail ⊢
        cases hdes : deserialize w.payload with
        | none =>
          have hres : processById cbs w B
              = { backlog := B, executed := [],
                  outcome := .droppedMalformed } := by
            simp [processById, hdes]
          rw [hres] at hfail
          simp at hfail
        | some p =>
          cases hid : payloadEntityId p with
          | none =>
            have hres : processById cbs w B
                = { backlog := B, executed := [],
                    outcome := .droppedMalformed } := by
              simp [processById, hdes, hid]
            rw [hres] at hfail
            simp at hfail
          | some i =>
            cases hf : findByEntityId w.channel i B with
            | none =>
              have hres : processById cbs w B
                  = { backlog := B, executed := [], outcome := .noMatch } := by
                simp [processById, hdes, hid, hf]
              rw [hres] at hfail
              simp at hfail
            | some r =>
              cases hdr : deserialize r.payload with
              | none =>
                have hres : processById cbs w B
                    = { backlog := B, executed := [], outcome := .noMatch } := by
                  simp [processById, hdes, hid, hf, hdr]
                rw [hres] at hfail
                simp at hfail
              | some q =>
                cases hrc : runCallbacks cbs q with
                | true =>
                  have hres : processById cbs w B
                      = { backlog := deleteById r.id B, executed := [r.id],
                          outcome := .executedOk } := by
                    simp [processById, hdes, hid, hf, hdr, executeRecord, hrc]
                  rw [hres] at hfail
                  simp at hfail
                | false =>
                  have hres : processById cbs w B
                      = { backlog := B, executed := [],
                          outcome := .callbackFailed } := by
                    simp [processById, hdes, hid, hf, hdr, executeRecord, hrc]
                  rw [hres]
                  exact ⟨rfl, rfl⟩
  refine ⟨key.1, key.2, ?_⟩
  simp only [listenLoop]
  rw [key.1, key.2]
  simp

/-- Witness for C3: one exactly-matching record, a callback that raises. -/
theorem callback_failure_atomicity_witness :
    (lockableProcess [fun _ => false]
        ⟨"tests_Author_insert", .encoded originalPayload 1, 0⟩
        [storedRecord]).backlog = [storedRecord] ∧
    (lockableProcess [fun _ => false]
        ⟨"tests_Author_insert", .encoded originalPayload 1, 0⟩
        [storedRecord]).executed = [] ∧
    listenLoop [fun _ => false]
        (⟨"tests_Author_insert", .encoded originalPayload 1, 0⟩ :: [])
        [storedRecord]
      = listenLoop [fun _ => false] [] [storedRecord] :=
  callback_failure_atomicity [fun _ => false]
    ⟨"tests_Author_insert", .encoded originalPayload 1, 0⟩
    [storedRecord] [] rfl

/-- C5: Structural (not byte-for-byte) exact matching — a wire payload that
is a re-encoding of the stored payload (structurally equal, textually
different) still hits the exact-match step, which locks and processes that
record. -/
theorem structural_not_byte_exact_match (cbs : List (Payload → Bool))
    (w : WireNotification) (B : List BacklogRecord) (r : BacklogRecord)
    (hr : r ∈ B) (hch : r.channel = w.channel) (hlk : r.locked = false)
    (hstruct : structEq r.payload w.payload = true)
    (_htext : r.payload ≠ w.payload)
    (huniq : ∀ x ∈ B,
      (decide (x.channel = w.channel) && !x.locked
        && structEq x.payload w.payload) = true → x = r)
    (hcb : ∀ q : Payload, runCallbacks cbs q = true) :
    exactMatchSkipLocked w B = some r ∧
    (lockableProcess cbs w B).executed = [r.id] ∧
    (lockableProcess cbs w B).backlog = deleteById r.id B := by
  have hfind : exactMatchSkipLocked w B = some r :=
    find_first_of_unique _ B r hr (by simp [hch, hlk, hstruct]) huniq
  have hsome : ∃ p, deserialize r.payload = some p := by
    unfold structEq at hstruct
    cases hd : deserialize r.payload with
    | none =>
      rw [hd] at hstruct
      cases hw : deserialize w.payload with
      | none => rw [hw] at hstruct; simp at hstruct
      | some pw => rw [hw] at hstruct; simp at hstruct
    | some pr => exact ⟨pr, rfl⟩
  obtain ⟨p, hp⟩ := hsome
  have hres : lockableProcess cbs w B
      = { backlog := deleteById r.id B, executed := [r.id],
          outcome := .executedOk } := by
    simp [lockableProcess, hfind, hp, executeRecord, hcb p]
  exact ⟨hfind, by rw [hres], by rw [hres]⟩

/-- Witness for C5: the stored payload re-encoded with a different textual
formatting (as in `test_process_notifications_handles_non_json_payloads`). -/
theorem structural_not_byte_exact_match_witness :
    exactMatchSkipLocked ⟨"tests_Author_insert", .encoded originalPayload 7, 0⟩
        [storedRecord] = some storedRecord ∧
    (lockableProcess [] ⟨"tests_Author_insert", .encoded originalPayload 7, 0⟩
        [storedRecord]).executed = [storedRecord.id] ∧
    (lockableProcess [] ⟨"tests_Author_insert", .encoded originalPayload 7, 0⟩
        [storedRecord]).backlog = deleteById storedRecord.id [storedRecord] :=
  structural_not_byte_exact_match []
    ⟨"tests_Author_insert", .encoded originalPayload 7, 0⟩
    [storedRecord] storedRecord (by decide) (by decide) (by decide) (by decide)
    (by decide) (by decide) (fun _ => rfl)

/-- C2: Recovery poison tolerance — a recovery pass over N backlog records of
which K are malformed (fail to parse: missing a required structural field or
undeserializable) drains and deletes exactly the N−K parseable records, in
order, leaves all K malformed records in the table, and never stops at a
malformed record regardless of its position in creation order. -/
theorem recovery_poison_tolerance (cbs : List (Payload → Bool))
    (B : List BacklogRecord)
    (hunlocked : ∀ r ∈ B, r.locked = false)
    (hcb : ∀ q : Payload, runCallbacks cbs q = true) :
    (recoverPass cbs B).1 = B.filter (fun r => (parseStored r).isNone) ∧
    (recoverPass cbs B).2
      = (B.filter (fun r => (parseStored r).isSome)).map BacklogRecord.id ∧
    (recoverPass cbs B).2.length
      + (B.filter (fun r => (parseStored r).isNone)).length = B.length := by
  have key : ∀ C : List BacklogRecord, (∀ r ∈ C, r.locked = false) →
      (recoverPass cbs C).1 = C.filter (fun r => (parseStored r).isNone) ∧
      (recoverPass cbs C).2
        = (C.filter (fun r => (parseStored r).isSome)).map BacklogRecord.id := by
    intro C
    induction C with
    | nil => intro _; exact ⟨rfl, rfl⟩
    | cons r rest ih =>
      intro hC
      obtain ⟨ih1, ih2⟩ := ih (fun x hx => hC x (List.mem_cons_of_mem r hx))
      have hstep : recoverStep cbs r = (parseStored r).isSome := by
        unfold recoverStep
        rw [hC r (List.mem_cons_self r rest)]
        cases hps : parseStored r with
        | none => rfl
        | some p => simp [hcb p]
      cases hopt : parseStored r with
      | none =>
        have hstep2 : recoverStep cbs r = false := by rw [hstep, hopt]; rfl
        constructor
        · simp [recoverPass, hstep2, List.filter_cons, hopt, ih1]
        · simp [recoverPass, hstep2, List.filter_cons, hopt, ih2]
      | some p =>
        have hstep2 : recoverStep cbs r = true := by rw [hstep, hopt]; rfl
        constructor
        · simp [recoverPass, hstep2, List.filter_cons, hopt, ih1]
        · simp [recoverPass, hstep2, List.filter_cons, hopt, ih2]
  obtain ⟨h1, h2⟩ := key B hunlocked
  refine ⟨h1, h2, ?_⟩
  rw [h2, List.length_map]
  have hpart := length_filter_partition (fun r => (parseStored r).isSome) B
  have hcongr : B.filter (fun x => !(parseStored x).isSome)
      = B.filter (fun x => (parseStored x).isNone) := by
    apply List.filter_congr
    intro x _
    cases parseStored x <;> rfl
  rw [hcongr] at hpart
  exact hpart

/-- Witness for C2: a backlog of three records one of which is corrupted the
way `test_recover_notifications_after_exception` corrupts it. -/
theorem recovery_poison_tolerance_witness :
    (recoverPass [] multiBacklog).1
      = multiBacklog.filter (fun r => (parseStored r).isNone) ∧
    (recoverPass [] multiBacklog).2
      = (multiBacklog.filter (fun r => (parseStored r).isSome)).map BacklogRecord.id ∧
    (recoverPass [] multiBacklog).2.length
      + (multiBacklog.filter (fun r => (parseStored r).isNone)).length
      = multiBacklog.length :=
  recovery_poison_tolerance [] multiBacklog (by decide) (fun _ => rfl)

/-- Counterexample to C9 as stated ("with any arguments"): a call passing
`log_level="bogus"` makes `file_handler.setLevel(log_level.upper())`
(line 48) raise `ValueError` after the handler list was already cleared
(line 42), leaving the `pgpubsub` logger with zero handlers, not one. -/
theorem logging_setup_counterexample :
    (setupSequence [bogusSetupArgs] initialLogger).handlers.length ≠ 1 := by
  decide

/-- C9 (amended): for every sequence of one or more `setup_pgpubsub_logging`
calls whose requested level is (case-insensitively) a level name known to the
`logging` module, the `pgpubsub` logger afterwards has exactly one handler
(existing handlers are cleared before the new one is added) and its level is
the upper-cased level requested in the last call; repeated calls never
accumulate duplicate handlers. -/
theorem logging_setup_single_handler (lg : LoggerState) (calls : List SetupArgs)
    (hne : calls ≠ [])
    (hvalid : ∀ a ∈ calls, validLevelName (upperName a.logLevel) = true) :
    (setupSequence calls lg).handlers.length = 1 ∧
    (setupSequence calls lg).level = upperName (calls.getLast hne).logLevel := by
  revert hne hvalid
  induction calls generalizing lg with
  | nil => intro hne _; exact absurd rfl hne
  | cons a rest ih =>
    intro hne hvalid
    have hva : validLevelName (upperName a.logLevel) = true :=
      hvalid a (List.mem_cons_self a rest)
    cases rest with
    | nil =>
      constructor
      · simp [setupSequence, setup_pgpubsub_logging, hva]
      · simp [setupSequence, setup_pgpubsub_logging, hva]
    | cons b rest2 =>
      have hne2 : b :: rest2 ≠ [] := List.cons_ne_nil b rest2
      have hvalid2 : ∀ x ∈ b :: rest2, validLevelName (upperName x.logLevel) = true :=
        fun x hx => hvalid x (List.mem_cons_of_mem a hx)
      have hseq : setupSequence (a :: b :: rest2) lg
          = setupSequence (b :: rest2) (setup_pgpubsub_logging a lg).1 := rfl
      have hlast : (a :: b :: rest2).getLast hne = (b :: rest2).getLast hne2 :=
        List.getLast_cons hne2
      rw [hseq, hlast]
      exact ih (setup_pgpubsub_logging a lg).1 hne2 hvalid2

/-- Witness for amended C9: two consecutive calls on a logger that already
has a handler; afterwards exactly one handler, level `DEBUG` from the last
call. -/
theorem logging_setup_single_handler_witness :
    (setupSequence [infoSetupArgs, debugSetupArgs] initialLogger).handlers.length
      = 1 ∧
    (setupSequence [infoSetupArgs, debugSetupArgs] initialLogger).level
      = upperName ([infoSetupArgs, debugSetupArgs].getLast
          (List.cons_ne_nil _ _)).logLevel :=
  logging_setup_single_handler initialLogger [infoSetupArgs, debugSetupArgs]
    (List.cons_ne_nil _ _) (by decide)

/-- Counterexample to C10 as stated ("for every input configuration dict"):
on a dict whose `handlers` entry is the integer 3,
`logging_config['handlers'].update(...)` raises `AttributeError`, so the
function returns no dict and performs none of the described mutations. -/
theorem logging_integration_counterexample :
    integrate_pgpubsub_logging_with_django none badConfig
      = Except.error "AttributeError" := rfl

/-- C10 (amended): for every configuration dict whose `handlers`,
`formatters` and `loggers` entries, when present, are dicts,
`integrate_pgpubsub_logging_with_django` returns the updated dict: it creates
the three sections only if absent, sets exactly the keys `pgpubsub_file`,
`pgpubsub_formatter` and `pgpubsub` within them (to the
`configure_django_logging_for_pgpubsub` values), and leaves every other
top-level entry and every other key inside the three sections unchanged. -/
theorem logging_integration_frame (env : Option String) (cfg : CDict)
    (hh : ∀ v, dictGet cfg "handlers" = some v → ∃ d, v = CVal.dict d)
    (hf : ∀ v, dictGet cfg "formatters" = some v → ∃ d, v = CVal.dict d)
    (hl : ∀ v, dictGet cfg "loggers" = some v → ∃ d, v = CVal.dict d) :
    ∃ out, integrate_pgpubsub_logging_with_django env cfg = Except.ok out ∧
      (∀ k, k ≠ "handlers" → k ≠ "formatters" → k ≠ "loggers" →
        dictGet out k = dictGet cfg k) ∧
      sectionLookup out "handlers" "pgpubsub_file"
        = some (pgpubsubFileHandler env) ∧
      sectionLookup out "formatters" "pgpubsub_formatter"
        = some pgpubsubFormatterVal ∧
      sectionLookup out "loggers" "pgpubsub" = some pgpubsubLoggerVal ∧
      (∀ k, k ≠ "pgpubsub_file" →
        sectionLookup out "handlers" k = sectionLookup cfg "handlers" k) ∧
      (∀ k, k ≠ "pgpubsub_formatter" →
        sectionLookup out "formatters" k = sectionLookup cfg "formatters" k) ∧
      (∀ k, k ≠ "pgpubsub" →
        sectionLookup out "loggers" k = sectionLookup cfg "loggers" k) := by
  obtain ⟨dh, hd1, hfr1, hsc1⟩ := ensureSection_spec cfg "handlers" hh
  have hfE1 : ∀ v, dictGet (ensureSection cfg "handlers") "formatters" = some v
      → ∃ d, v = CVal.dict d := by
    intro v hv
    rw [hfr1 "formatters" (by decide)] at hv
    exact hf v hv
  obtain ⟨df, hd2, hfr2, hsc2⟩ :=
    ensureSection_spec (ensureSection cfg "handlers") "formatters" hfE1
  have hlE2 : ∀ v,
      dictGet (ensureSection (ensureSection cfg "handlers") "formatters")
        "loggers" = some v → ∃ d, v = CVal.dict d := by
    intro v hv
    rw [hfr2 "loggers" (by decide), hfr1 "loggers" (by decide)] at hv
    exact hl v hv
  obtain ⟨dl, hd3, hfr3, hsc3⟩ :=
    ensureSection_spec
      (ensureSection (ensureSection cfg "handlers") "formatters") "loggers" hlE2
  have hH3 : dictGet (ensureSection (ensureSection (ensureSection cfg
      "handlers") "formatters") "loggers") "handlers" = some (CVal.dict dh) := by
    rw [hfr3 "handlers" (by decide), hfr2 "handlers" (by decide)]
    exact hd1
  have hF3 : dictGet (ensureSection (ensureSection (ensureSection cfg
      "handlers") "formatters") "loggers") "formatters" = some (CVal.dict df) := by
    rw [hfr3 "formatters" (by decide)]
    exact hd2
  have hL3 : dictGet (ensureSection (ensureSection (ensureSection cfg
      "handlers") "formatters") "loggers") "loggers" = some (CVal.dict dl) := hd3
  have hint : integrate_pgpubsub_logging_with_django env cfg
      = Except.ok (dictSet (dictSet (dictSet
          (ensureSection (ensureSection (ensureSection cfg "handlers")
            "formatters") "loggers")
          "handlers" (.dict (dictUpdate dh (pgpubsubSection env "handlers"))))
          "formatters" (.dict (dictUpdate df (pgpubsubSection env "formatters"))))
          "loggers" (.dict (dictUpdate dl (pgpubsubSection env "loggers")))) := by
    simp only [integrate_pgpubsub_logging_with_django, hH3, hF3, hL3]
  have hupdh : dictUpdate dh (pgpubsubSection env "handlers")
      = dictSet dh "pgpubsub_file" (pgpubsubFileHandler env) := rfl
  have hupdf : dictUpdate df (pgpubsubSection env "formatters")
      = dictSet df "pgpubsub_formatter" pgpubsubFormatterVal := rfl
  have hupdl : dictUpdate dl (pgpubsubSection env "loggers")
      = dictSet dl "pgpubsub" pgpubsubLoggerVal := rfl
  refine ⟨_, hint, ?_, ?_, ?_, ?_, ?_, ?_, ?_⟩
  · intro k hk1 hk2 hk3
    rw [dictGet_dictSet_ne _ _ _ _ hk3, dictGet_dictSet_ne _ _ _ _ hk2,
      dictGet_dictSet_ne _ _ _ _ hk1, hfr3 k hk3, hfr2 k hk2, hfr1 k hk1]
  · unfold sectionLookup
    rw [dictGet_dictSet_ne _ _ _ _ (by decide : ("handlers" : String) ≠ "loggers"),
      dictGet_dictSet_ne _ _ _ _ (by decide : ("handlers" : String) ≠ "formatters"),
      dictGet_dictSet_same]
    show dictGet (dictUpdate dh (pgpubsubSection env "handlers")) "pgpubsub_file"
        = some (pgpubsubFileHandler env)
    rw [hupdh, dictGet_dictSet_same]
  · unfold sectionLookup
    rw [dictGet_dictSet_ne _ _ _ _ (by decide : ("formatters" : String) ≠ "loggers"),
      dictGet_dictSet_same]
    show dictGet (dictUpdate df (pgpubsubSection env "formatters"))
        "pgpubsub_formatter" = some pgpubsubFormatterVal
    rw [hupdf, dictGet_dictSet_same]
  · unfold sectionLookup
    rw [dictGet_dictSet_same]
    show dictGet (dictUpdate dl (pgpubsubSection env "loggers")) "pgpubsub"
        = some pgpubsubLoggerVal
    rw [hupdl, dictGet_dictSet_same]
  · intro k hk
    unfold sectionLookup
    rw [dictGet_dictSet_ne _ _ _ _ (by decide : ("handlers" : String) ≠ "loggers"),
      dictGet_dictSet_ne _ _ _ _ (by decide : ("handlers" : String) ≠ "formatters"),
      dictGet_dictSet_same]
    show dictGet (dictUpdate dh (pgpubsubSection env "handlers")) k
        = sectionLookup cfg "handlers" k
    rw [hupdh, dictGet_dictSet_ne _ _ _ _ hk]
    exact hsc1 k
  · intro k hk
    unfold sectionLookup
    rw [dictGet_dictSet_ne _ _ _ _ (by decide : ("formatters" : String) ≠ "loggers"),
      dictGet_dictSet_same]
    show dictGet (dictUpdate df (pgpubsubSection env "formatters")) k
        = sectionLookup cfg "formatters" k
    rw [hupdf, dictGet_dictSet_ne _ _ _ _ hk]
    exact (hsc2 k).trans
      (sectionLookup_congr _ cfg "formatters" (hfr1 "formatters" (by decide)) k)
  · intro k hk
    unfold sectionLookup
    rw [dictGet_dictSet_same]
    show dictGet (dictUpdate dl (pgpubsubSection env "loggers")) k
        = sectionLookup cfg "loggers" k
    rw [hupdl, dictGet_dictSet_ne _ _ _ _ hk]
    exact (hsc3 k).trans
      ((sectionLookup_congr _ _ "loggers" (hfr2 "loggers" (by decide)) k).trans
        (sectionLookup_congr _ cfg "loggers" (hfr1 "loggers" (by decide)) k))

/-- Witness for amended C10 on a typical Django `LOGGING` dict with a
`version` entry and an existing `console` handler. -/
theorem logging_integration_frame_witness :
    ∃ out, integrate_pgpubsub_logging_with_django none sampleConfig
        = Except.ok out ∧
      (∀ k, k ≠ "handlers" → k ≠ "formatters" → k ≠ "loggers" →
        dictGet out k = dictGet sampleConfig k) ∧
      sectionLookup out "handlers" "pgpubsub_file"
        = some (pgpubsubFileHandler none) ∧
      sectionLookup out "formatters" "pgpubsub_formatter"
        = some pgpubsubFormatterVal ∧
      sectionLookup out "loggers" "pgpubsub" = some pgpubsubLoggerVal ∧
      (∀ k, k ≠ "pgpubsub_file" →
        sectionLookup out "handlers" k = sectionLookup sampleConfig "handlers" k) ∧
      (∀ k, k ≠ "pgpubsub_formatter" →
        sectionLookup out "formatters" k
          = sectionLookup sampleConfig "formatters" k) ∧
      (∀ k, k ≠ "pgpubsub" →
        sectionLookup out "loggers" k = sectionLookup sampleConfig "loggers" k) :=
  logging_integration_frame none sampleConfig
    (by intro v hv
        injection hv with h
        exact ⟨_, h.symm⟩)
    (fun v hv => Option.noConfusion hv)
    (fun v hv => Option.noConfusion hv)

end Pgpubsub
